import Mathlib

/-!
Verification of the joke-generator fetch/state-transition contract.

The embedded code is `src/hooks/useJoke.js` (the `useJoke` hook: state
`joke`/`isLoading`/`error` and the operations `fetchJoke`, `clearJoke`)
and the rendering conditions of the display surface `Joke.jsx`.

Modelling decisions, each traceable to the source:
- `FetchState.joke : Option String` models the JS value held by the
  `joke` state variable: `some t` is the string `t`, `none` is the JS
  value `undefined` (which `setJoke(data.joke)` stores when the parsed
  body lacks a `joke` field).  The initial value is `some ""` from
  `useState("")`.
- `FetchState.error : Option String` models `null` as `none`.
- A settlement of the network call is a `FetchOutcome`: either the
  `fetch` promise rejects (transport failure, with the rejection
  message), or a response arrives with a numeric status and a body.
  The body either fails to parse as JSON (`response.json()` rejects
  with a message — this case also stands for a body on which the
  `.joke` property access itself throws, e.g. the JSON value `null`),
  or parses, in which case its `joke` field is `some` string or
  absent (`undefined`, modelled `none`).
- `response.ok` is true exactly for statuses 200..299.
- `fetchJoke` is split exactly like the source: the synchronous prefix
  before `await` (`setIsLoading(true); setError(null)`), the
  try/catch body, and the `finally` clause that clears `isLoading`
  last.  `fetchJoke s o` is the state after the whole invocation
  settles with outcome `o`, starting from state `s`.
-/

namespace JokeGenerator

/-- The three state variables of `useJoke`:
`joke` (JS string or `undefined`), `isLoading`, `error` (string or `null`). -/
structure FetchState where
  joke : Option String
  isLoading : Bool
  error : Option String
deriving Repr, DecidableEq

/-- Initial state from `useState("")`, `useState(false)`, `useState(null)`. -/
def initialFetchState : FetchState :=
  { joke := some "", isLoading := false, error := none }

/-- Outcome of reading the response body: `response.json()` rejects with a
message, or it resolves to a value whose `joke` field is `some` string or
absent (JS `undefined`). -/
inductive JokeBody where
  | invalid (msg : String)
  | parsed (joke : Option String)
deriving Repr, DecidableEq

/-- How one `fetchJoke` invocation settles: the `fetch` call rejects
(transport failure), or an HTTP response with a status and body arrives. -/
inductive FetchOutcome where
  | transportFailure (msg : String)
  | response (status : Nat) (body : JokeBody)
deriving Repr, DecidableEq

/-- `response.ok`: status in the range 200..299. -/
def responseOk (status : Nat) : Bool :=
  decide (200 ≤ status) && decide (status ≤ 299)

/-- The synchronous prefix of `fetchJoke`, run before the `await`:
`setIsLoading(true); setError(null)`. -/
def fetchJokeStart (s : FetchState) : FetchState :=
  { s with isLoading := true, error := none }

/-- The try/catch body of `fetchJoke`, given the network outcome:
non-ok status throws `HTTP error! status: ${status}` (caught, message
stored in `error`); a parse failure is caught likewise; otherwise
`setJoke(data.joke)`. -/
def fetchJokeTry (s : FetchState) (o : FetchOutcome) : FetchState :=
  match o with
  | .transportFailure msg => { s with error := some msg }
  | .response status body =>
    if responseOk status then
      match body with
      | .invalid msg => { s with error := some msg }
      | .parsed j => { s with joke := j }
    else
      { s with error := some ("HTTP error! status: " ++ toString status) }

/-- A full settled `fetchJoke` invocation: the synchronous prefix, the
try/catch body, then the `finally` clause `setIsLoading(false)`. -/
def fetchJoke (s : FetchState) (o : FetchOutcome) : FetchState :=
  { fetchJokeTry (fetchJokeStart s) o with isLoading := false }

/-- `clearJoke`: `setJoke(""); setError(null)`. -/
def clearJoke (s : FetchState) : FetchState :=
  { s with joke := some "", error := none }

/-- JS truthiness of the modelled values: `null`/`undefined` (`none`) and
the empty string are falsy, every other string is truthy. -/
def jsTruthy : Option String → Bool
  | none => false
  | some t => t != ""

/-- `Joke.jsx`: the error paragraph renders when `error &&` holds. -/
def rendersError (s : FetchState) : Bool := jsTruthy s.error

/-- `Joke.jsx`: the loading paragraph renders when `isLoading &&` holds. -/
def rendersLoading (s : FetchState) : Bool := s.isLoading

/-- `Joke.jsx`: the joke paragraph renders when `joke && !isLoading` holds. -/
def rendersJokeText (s : FetchState) : Bool := jsTruthy s.joke && !s.isLoading

/-- An outcome on which the try block throws: a transport failure, a
non-ok status, or a body that fails to parse. -/
def isFailureOutcome : FetchOutcome → Bool
  | .transportFailure _ => true
  | .response _ (.invalid _) => true
  | .response status (.parsed _) => !responseOk status

/-- In the HTTP-status failure case, the stored error message contains the
decimal status code; vacuously true for the other outcomes. -/
def httpMention (o : FetchOutcome) (t : FetchState) : Prop :=
  match o with
  | .response status _ =>
      responseOk status = true ∨
        ∃ pre post, t.error = some (pre ++ toString status ++ post)
  | .transportFailure _ => True

/-- C7: after construction (before any operation), the state is exactly
content = "", isLoading = false, error = null. -/
theorem initial_state_spec :
    initialFetchState = { joke := some "", isLoading := false, error := none } :=
  rfl

/-- C6: invoking fetch() synchronously establishes, before the network call
settles, isLoading = true and error = null, while content keeps its prior
value. -/
theorem fetch_start_loading_and_clears_error (s : FetchState) :
    (fetchJokeStart s).isLoading = true ∧ (fetchJokeStart s).error = none ∧
      (fetchJokeStart s).joke = s.joke :=
  ⟨rfl, rfl, rfl⟩

/-- C1: for every 2xx response with a parseable body whose joke field is a
non-empty string S, after settlement content = S, error = null,
isLoading = false, regardless of the prior state. -/
theorem fetch_success_sets_content (s : FetchState) (status : Nat) (S : String)
    (hok : responseOk status = true) (hS : S ≠ "") :
    fetchJoke s (.response status (.parsed (some S))) =
      { joke := some S, isLoading := false, error := none } := by
  simp [fetchJoke, fetchJokeTry, fetchJokeStart, hok]

/-- Witness for C1 at Scenario A: status 200 with the concrete joke body. -/
theorem fetch_success_sets_content_witness :
    responseOk 200 = true ∧
    "Why do programmers prefer dark mode? Because light attracts bugs." ≠ "" ∧
    fetchJoke initialFetchState (.response 200 (.parsed
        (some "Why do programmers prefer dark mode? Because light attracts bugs."))) =
      { joke := some "Why do programmers prefer dark mode? Because light attracts bugs.",
        isLoading := false, error := none } :=
  ⟨by decide, by decide,
    fetch_success_sets_content initialFetchState 200 _ (by decide) (by decide)⟩

/-- C3: after any fetch() invocation settles, isLoading is false, and the
finally clause is the final mutation: every other field equals its value at
the end of the try/catch body, on every outcome. -/
theorem fetch_settles_not_loading (s : FetchState) (o : FetchOutcome) :
    (fetchJoke s o).isLoading = false ∧
      (fetchJoke s o).joke = (fetchJokeTry (fetchJokeStart s) o).joke ∧
      (fetchJoke s o).error = (fetchJokeTry (fetchJokeStart s) o).error :=
  ⟨rfl, rfl, rfl⟩

/-- C2: for every failed fetch() attempt (non-ok HTTP status, transport
failure, or parse failure), after settlement error is non-null, content is
unchanged from before the call, isLoading is false, and in the HTTP-status
case the message contains the decimal status code. -/
theorem fetch_failure_settles (s : FetchState) (o : FetchOutcome)
    (h : isFailureOutcome o = true) :
    (fetchJoke s o).error ≠ none ∧ (fetchJoke s o).joke = s.joke ∧
      (fetchJoke s o).isLoading = false ∧ httpMention o (fetchJoke s o) := by
  cases o with
  | transportFailure msg =>
    simp [fetchJoke, fetchJokeTry, fetchJokeStart, httpMention]
  | response status body =>
    by_cases hok : responseOk status = true
    · cases body with
      | invalid msg =>
        simp [fetchJoke, fetchJokeTry, fetchJokeStart, httpMention, hok]
      | parsed j =>
        simp [isFailureOutcome, hok] at h
    · rw [Bool.not_eq_true] at hok
      cases body <;>
        · refine ⟨by simp [fetchJoke, fetchJokeTry, fetchJokeStart, hok], ?_, rfl, ?_⟩
          · simp [fetchJoke, fetchJokeTry, fetchJokeStart, hok]
          · refine Or.inr ⟨"HTTP error! status: ", "", ?_⟩
            simp [fetchJoke, fetchJokeTry, fetchJokeStart, hok]

/-- Witness for C2 at a concrete transport failure. -/
theorem fetch_failure_settles_witness :
    isFailureOutcome (.transportFailure "Failed to fetch") = true ∧
    ((fetchJoke initialFetchState (.transportFailure "Failed to fetch")).error ≠ none ∧
      (fetchJoke initialFetchState
          (.transportFailure "Failed to fetch")).joke = initialFetchState.joke ∧
      (fetchJoke initialFetchState (.transportFailure "Failed to fetch")).isLoading = false ∧
      httpMention (.transportFailure "Failed to fetch")
        (fetchJoke initialFetchState (.transportFailure "Failed to fetch"))) :=
  ⟨by decide, fetch_failure_settles initialFetchState _ (by decide)⟩

/-- C10: for every HTTP response with a non-ok status, after settlement the
error message is exactly "HTTP error! status: " followed by the decimal
status code. -/
theorem fetch_http_error_message_exact (s : FetchState) (status : Nat)
    (body : JokeBody) (h : responseOk status = false) :
    (fetchJoke s (.response status body)).error =
      some ("HTTP error! status: " ++ toString status) := by
  cases body <;> simp [fetchJoke, fetchJokeTry, fetchJokeStart, h]

/-- Witness for C10 at status 404. -/
theorem fetch_http_error_message_exact_witness :
    responseOk 404 = false ∧
    (fetchJoke initialFetchState (.response 404 (.parsed none))).error =
      some ("HTTP error! status: " ++ toString 404) :=
  ⟨by decide, fetch_http_error_message_exact initialFetchState 404 (.parsed none) (by decide)⟩

/-- C4 counterexample: a 200 response whose body is valid JSON but lacks the
joke field settles with error = null (no ParseError string is stored) and
content set to the undefined field value — reached from the initial state. -/
theorem missing_field_records_no_error :
    (fetchJoke initialFetchState (.response 200 (.parsed none))).error = none ∧
    (fetchJoke initialFetchState (.response 200 (.parsed none))).joke = none := by
  decide

/-- C4 amended: for every 2xx response whose body is valid JSON but lacks the
joke field, fetch() settles without any propagated exception, with error left
null and content set to the undefined field value. -/
theorem missing_field_settles_silently (s : FetchState) (status : Nat)
    (h : responseOk status = true) :
    fetchJoke s (.response status (.parsed none)) =
      { joke := none, isLoading := false, error := none } := by
  simp [fetchJoke, fetchJokeTry, fetchJokeStart, h]

/-- Witness for the amended C4 at status 200. -/
theorem missing_field_settles_silently_witness :
    responseOk 200 = true ∧
    fetchJoke initialFetchState (.response 200 (.parsed none)) =
      { joke := none, isLoading := false, error := none } :=
  ⟨by decide, missing_field_settles_silently initialFetchState 200 (by decide)⟩

/-- C5 counterexample: after a successful fetch followed by a failed one —
a state reachable from the initial state — the display surface renders both
the error message and the joke text, so the three outputs are not mutually
exclusive. -/
theorem display_renders_error_and_joke_together :
    rendersError (fetchJoke
        (fetchJoke initialFetchState (.response 200 (.parsed (some "Stale joke"))))
        (.response 500 (.invalid "x"))) = true ∧
    rendersJokeText (fetchJoke
        (fetchJoke initialFetchState (.response 200 (.parsed (some "Stale joke"))))
        (.response 500 (.invalid "x"))) = true := by
  decide

/-- C5 amended: the loading indicator and the joke text are never rendered
for the same state, and each output renders exactly under its stated
condition; the error message, however, may render alongside the joke text. -/
theorem display_loading_joke_exclusive (s : FetchState) :
    (rendersLoading s && rendersJokeText s) = false ∧
      rendersError s = jsTruthy s.error ∧
      rendersLoading s = s.isLoading ∧
      rendersJokeText s = (jsTruthy s.joke && !s.isLoading) := by
  refine ⟨?_, rfl, rfl, rfl⟩
  cases h : s.isLoading <;> simp [rendersLoading, rendersJokeText, h]

/-- C8: clear() sets content to "" and error to null and leaves isLoading
unchanged, for every prior state. -/
theorem clear_resets_content_and_error (s : FetchState) :
    (clearJoke s).joke = some "" ∧ (clearJoke s).error = none ∧
      (clearJoke s).isLoading = s.isLoading :=
  ⟨rfl, rfl, rfl⟩

/-- C9: clear() is idempotent: applying it twice yields the same state as
applying it once. -/
theorem clear_idempotent (s : FetchState) :
    clearJoke (clearJoke s) = clearJoke s :=
  rfl

end JokeGenerator
